import Mathlib

/-!
Verification model of the guardchain AI service scoring pipelines
(`fraud_detection_service.py`, `document_validator.py`,
`image_analysis_service.py`).

Python floats are modelled as rationals (`ℚ`); all constants appearing in the
code are exactly representable and no comparison settled below is close enough
to a binary-rounding boundary for the float/rational distinction to matter.
Python exceptions are modelled with `Except`/`Option`: an `Except.error` input
stands for "the wrapped computation raised", and functions that the source
wraps in a broad `try/except` take an `Option String` argument injecting such
an error.  External libraries (cv2, numpy, PIL) are collaborators: a decoded
image is represented by the numeric statistics the code reads off it.
-/

namespace Guardchain

/- The kernel evaluation used by `decide` needs the core rational arithmetic
to unfold; these four operations ship marked irreducible. -/
attribute [local semireducible] Rat.add Rat.sub Rat.mul Rat.inv

/-! ## Basic Python string/number helpers -/

/-- Python `\s` (ASCII): space, tab, newline, carriage return, form feed,
vertical tab. -/
def isPySpace (c : Char) : Bool :=
  c = ' ' || c = '\t' || c = '\n' || c = '\r' || c = '\x0b' || c = '\x0c'

/-- Python `\w` (ASCII): letters, digits, underscore. -/
def isWordChar (c : Char) : Bool :=
  c.isAlpha || c.isDigit || c = '_'

/-- The single-quote character, used when reproducing Python `repr` of lists. -/
def sq : String := String.mk [Char.ofNat 39]

/-- `sep.join(l)` (structural, kernel-evaluable). -/
def strJoin (sep : String) : List String → String
  | [] => ""
  | [x] => x
  | x :: xs => x ++ sep ++ strJoin sep xs

/-- Python `repr` of a list of strings, e.g. `['patient', 'bill']`. -/
def pyReprStrList (l : List String) : String :=
  "[" ++ strJoin ", " (l.map (fun s => sq ++ s ++ sq)) ++ "]"

/-- Split a char list at every char satisfying `p`, keeping empty pieces
(Python `str.split(sep)` for a one-char separator). -/
def splitChars (p : Char → Bool) : List Char → List (List Char)
  | [] => [[]]
  | c :: t =>
    let rest := splitChars p t
    if p c then [] :: rest
    else
      match rest with
      | [] => [[c]]
      | piece :: more => (c :: piece) :: more

/-- Python `s.split(sep)` for a single-character separator. -/
def pySplitOn (s : String) (sep : Char) : List String :=
  (splitChars (fun c => c = sep) s.toList).map String.mk

/-- `str.split()` with no separator: split on whitespace runs, drop empties. -/
def pySplit (s : String) : List String :=
  ((splitChars isPySpace s.toList).map String.mk).filter (fun w => w ≠ "")

/-- `str.lower()` (ASCII). -/
def pyLower (s : String) : String :=
  String.mk (s.toList.map Char.toLower)

/-- `str.endswith(post)` via list suffix testing (kernel-evaluable). -/
def strEndsWith (s post : String) : Bool :=
  post.toList.isSuffixOf s.toList

/-- Decimal rendering of a natural number (Python `str(n)`), with a fuel
argument for structural recursion. -/
def natToStringAux : ℕ → ℕ → List Char → List Char
  | 0, _, acc => acc
  | fuel + 1, n, acc =>
    let d := Char.ofNat (48 + n % 10)
    if n < 10 then d :: acc else natToStringAux fuel (n / 10) (d :: acc)

def natToString (n : ℕ) : String := String.mk (natToStringAux (n + 1) n [])

/-- `str.strip()` (ASCII whitespace). -/
def pyStrip (s : String) : String :=
  String.mk (((s.toList.dropWhile isPySpace).reverse.dropWhile isPySpace).reverse)

/-- Substring containment on char lists (Python `needle in haystack`). -/
def listContains (hay pat : List Char) : Bool :=
  match hay with
  | [] => pat.isEmpty
  | _ :: t => pat.isPrefixOf hay || listContains t pat

/-- Python `pat in s` for strings. -/
def strContains (s pat : String) : Bool :=
  listContains s.toList pat.toList

/-- Parse a run of ASCII digits as a natural number (Python `int` on the
all-digit substrings produced by the regexes below). -/
def natOfDigits (s : String) : ℕ :=
  s.toList.foldl (fun a c => a * 10 + (c.toNat - 48)) 0

/-- Python `max` on floats, written with a plain conditional so that kernel
evaluation (`decide`) goes through. -/
def pyMax (a b : ℚ) : ℚ := if a ≤ b then b else a

/-- Python `min` on floats. -/
def pyMin (a b : ℚ) : ℚ := if a ≤ b then a else b

/-- Python `abs` on floats. -/
def pyAbs (a : ℚ) : ℚ := if a < 0 then -a else a

/-- Python `max` on ints. -/
def pyMaxN (a b : ℕ) : ℕ := if a ≤ b then b else a

/-- Python `min` on ints. -/
def pyMinN (a b : ℕ) : ℕ := if a ≤ b then a else b

theorem pyMax_eq (a b : ℚ) : pyMax a b = max a b := (max_def a b).symm

theorem pyMin_eq (a b : ℚ) : pyMin a b = min a b := (min_def a b).symm

theorem pyAbs_eq (a : ℚ) : pyAbs a = |a| := by
  unfold pyAbs
  rcases lt_or_ge a 0 with h | h
  · rw [if_pos h, abs_of_neg h]
  · rw [if_neg (not_lt.mpr h), abs_of_nonneg h]

/-- Clamp to [0,1]: Python `max(0.0, min(1.0, x))`. -/
def clamp01 (x : ℚ) : ℚ := pyMax 0 (pyMin 1 x)

theorem clamp01_eq (x : ℚ) : clamp01 x = max 0 (min 1 x) := by
  rw [clamp01, pyMax_eq, pyMin_eq]

theorem clamp01_nonneg (x : ℚ) : 0 ≤ clamp01 x := by
  rw [clamp01_eq]; exact le_max_left 0 _

theorem clamp01_le_one (x : ℚ) : clamp01 x ≤ 1 := by
  rw [clamp01_eq]
  exact max_le (by norm_num) (min_le_left 1 x)

theorem clamp01_mono {x y : ℚ} (h : x ≤ y) : clamp01 x ≤ clamp01 y := by
  rw [clamp01_eq, clamp01_eq]
  exact max_le_max le_rfl (min_le_min le_rfl h)

/-! ## Gregorian calendar (models Python `datetime`)

`datetime(year, month, day)` accepts `1 ≤ year ≤ 9999` and a valid calendar
day, raising `ValueError` otherwise; subtraction of two datetimes compares
day ordinals. -/

def isLeapYear (y : ℕ) : Bool :=
  (y % 4 = 0 && y % 100 ≠ 0) || y % 400 = 0

def daysInMonth (y m : ℕ) : ℕ :=
  if m = 2 then (if isLeapYear y then 29 else 28)
  else if m = 4 ∨ m = 6 ∨ m = 9 ∨ m = 11 then 30
  else 31

/-- Does `datetime(y, m, d)` construct without raising `ValueError`? -/
def dateValid (y m d : ℕ) : Bool :=
  1 ≤ y && y ≤ 9999 && 1 ≤ m && m ≤ 12 && 1 ≤ d && d ≤ daysInMonth y m

def daysBeforeMonth (y m : ℕ) : ℕ :=
  (List.range (m - 1)).foldl (fun a i => a + daysInMonth y (i + 1)) 0

/-- Rata-die day ordinal of a valid date (day 1 = 0001-01-01). -/
def dayOrdinal (y m d : ℕ) : ℕ :=
  365 * (y - 1) + (y - 1) / 4 - (y - 1) / 100 + (y - 1) / 400
    + daysBeforeMonth y m + d

/-- Span in days between the max and min of a list of day ordinals
(`max(dates) - min(dates)` in the source). -/
def daySpan (l : List ℕ) : ℕ :=
  (l.foldl pyMaxN 0) - (l.foldl pyMinN (l.headD 0))

/-! ## A tiny backtracking regex engine

Faithful leftmost / greedy semantics for the fixed patterns the source feeds
to `re.findall` / `re.search`.  Stars and options are greedy (body first),
alternation tries the left branch first, exactly as CPython's `re`.
Character classes carry a decidable predicate; `bound` is `\b`; `group`
captures the consumed substring.  The matcher is written in
continuation-passing style with a fuel bound on recursion depth; every
star body below consumes at least one character and the star rule demands
progress, so a fuel of `50 * (length + 10)` never runs out on these
patterns. -/

inductive RE where
  | eps : RE
  | cls (p : Char → Bool) : RE
  | seq (a b : RE) : RE
  | alt (a b : RE) : RE
  | star (r : RE) : RE
  | opt (r : RE) : RE
  | group (r : RE) : RE
  | bound : RE

/-- Literal string. -/
def reLit (s : String) : RE :=
  (s.toList.map (fun c => RE.cls (fun x => x = c))).foldr RE.seq RE.eps

/-- Case-insensitive literal string (models `re.IGNORECASE` on literals while
leaving captured text in its original case). -/
def reLitCI (s : String) : RE :=
  (s.toList.map (fun c => RE.cls (fun x => x.toLower = c.toLower))).foldr RE.seq RE.eps

/-- `r{n}`. -/
def reRepeat (r : RE) (n : ℕ) : RE :=
  (List.replicate n r).foldr RE.seq RE.eps

/-- `r{1,n}` (greedy). -/
def reUpTo (r : RE) : ℕ → RE
  | 0 => RE.eps
  | n + 1 => RE.seq r (RE.opt (reUpTo r n))

/-- `r{lo,}` (greedy). -/
def reAtLeast (r : RE) (lo : ℕ) : RE :=
  RE.seq (reRepeat r lo) (RE.star r)

/-- The matcher: `prev` is the character just before the current position
(for `\b`), `caps` accumulates completed capture groups in textual order.
Returns the remaining suffix and the captures of the first (leftmost-greedy)
way to match `r` at the current position. -/
def reM (fuel : ℕ) (r : RE) (prev : Option Char) (s : List Char)
    (caps : List (List Char))
    (k : Option Char → List Char → List (List Char) →
      Option (List Char × List (List Char))) :
    Option (List Char × List (List Char)) :=
  match fuel with
  | 0 => none
  | fuel + 1 =>
    match r with
    | .eps => k prev s caps
    | .cls p =>
      match s with
      | [] => none
      | c :: t => if p c then k (some c) t caps else none
    | .seq a b =>
      reM fuel a prev s caps (fun p2 s2 c2 => reM fuel b p2 s2 c2 k)
    | .alt a b =>
      (reM fuel a prev s caps k).orElse (fun _ => reM fuel b prev s caps k)
    | .star r =>
      (reM fuel r prev s caps (fun p2 s2 c2 =>
        if s2.length < s.length then reM fuel (.star r) p2 s2 c2 k
        else none)).orElse (fun _ => k prev s caps)
    | .opt r =>
      (reM fuel r prev s caps k).orElse (fun _ => k prev s caps)
    | .group r =>
      reM fuel r prev s caps (fun p2 s2 c2 =>
        k p2 s2 (c2 ++ [s.take (s.length - s2.length)]))
    | .bound =>
      let leftW := match prev with | some c => isWordChar c | none => false
      let rightW := match s with | c :: _ => isWordChar c | [] => false
      if leftW ≠ rightW then k prev s caps else none

def reFuel (s : List Char) : ℕ := 50 * (s.length + 10)

/-- Try to match `r` at the start of `s` (with left context `prev`); return
(consumed prefix, captures, rest). -/
def reMatchAt (r : RE) (prev : Option Char) (s : List Char) :
    Option (List Char × List (List Char) × List Char) :=
  match reM (reFuel s) r prev s [] (fun _ rest caps => some (rest, caps)) with
  | none => none
  | some (rest, caps) => some (s.take (s.length - rest.length), caps, rest)

/-- `re.search`: leftmost match; returns (match, captures). -/
def reSearchAux (fuel : ℕ) (r : RE) (prev : Option Char) (s : List Char) :
    Option (List Char × List (List Char)) :=
  match fuel with
  | 0 => none
  | fuel + 1 =>
    match reMatchAt r prev s with
    | some (m, caps, _) => some (m, caps)
    | none =>
      match s with
      | [] => none
      | c :: t => reSearchAux fuel r (some c) t

def reSearch (r : RE) (s : String) : Option (List Char × List (List Char)) :=
  reSearchAux (s.length + 1) r none s.toList

/-- Does `re.search` succeed? -/
def reTest (r : RE) (s : String) : Bool :=
  (reSearch r s).isSome

/-- First capture group of a `re.search`, as a string (`match.group(1)`). -/
def reGroup1 (r : RE) (s : String) : Option String :=
  match reSearch r s with
  | some (_, g :: _) => some (String.mk g)
  | _ => none

/-- All capture groups of a `re.search`. -/
def reGroups (r : RE) (s : String) : Option (List String) :=
  match reSearch r s with
  | some (_, gs) => some (gs.map String.mk)
  | _ => none

/-- `re.findall` for patterns whose matches are non-empty: scan left to
right, on a match continue after it, otherwise advance one character. -/
def reFindAllAux (fuel : ℕ) (r : RE) (prev : Option Char) (s : List Char) :
    List (List Char) :=
  match fuel with
  | 0 => []
  | fuel + 1 =>
    match reMatchAt r prev s with
    | some (m, _, rest) =>
      if m.isEmpty then
        match s with
        | [] => []
        | c :: t => reFindAllAux fuel r (some c) t
      else m :: reFindAllAux fuel r (m.getLast? ) rest
    | none =>
      match s with
      | [] => []
      | c :: t => reFindAllAux fuel r (some c) t

def reFindAll (r : RE) (s : String) : List String :=
  (reFindAllAux (s.length + 1) r none s.toList).map String.mk

/-! ## The concrete regular expressions of the source -/

def dCls : RE := .cls Char.isDigit
def sCls : RE := .cls isPySpace
def wCls : RE := .cls isWordChar
/-- `.` — any character but newline. -/
def dotCls : RE := .cls (fun c => c ≠ '\n')

/-- `r'\$?\s*\d{1,3}(?:,\d{3})*(?:\.\d{2})?'` — the permissive amount pattern
shared by `_analyze_amounts` (fraud service) and `_extract_amounts`
(document validator). -/
def amountLooseRE : RE :=
  .seq (.opt (.cls (fun c => c = '$')))
    (.seq (.star sCls)
      (.seq (reUpTo dCls 3)
        (.seq (.star (.seq (.cls (fun c => c = ',')) (reRepeat dCls 3)))
          (.opt (.seq (.cls (fun c => c = '.')) (reRepeat dCls 2))))))

/-- `r'\$\d+\.\d{2}'` — the strict `amount_pattern` of the validation rules. -/
def amountStrictRE : RE :=
  .seq (.cls (fun c => c = '$'))
    (.seq (reAtLeast dCls 1)
      (.seq (.cls (fun c => c = '.')) (reRepeat dCls 2)))

/-- `r'\d{1,2}/\d{1,2}/\d{4}'`. -/
def dateSlashRE : RE :=
  .seq (reUpTo dCls 2)
    (.seq (.cls (fun c => c = '/'))
      (.seq (reUpTo dCls 2)
        (.seq (.cls (fun c => c = '/')) (reRepeat dCls 4))))

/-- `r'\d{1,2}-\d{1,2}-\d{4}'`. -/
def dateDashRE : RE :=
  .seq (reUpTo dCls 2)
    (.seq (.cls (fun c => c = '-'))
      (.seq (reUpTo dCls 2)
        (.seq (.cls (fun c => c = '-')) (reRepeat dCls 4))))

/-- `r'\d{4}-\d{1,2}-\d{1,2}'`. -/
def dateIsoRE : RE :=
  .seq (reRepeat dCls 4)
    (.seq (.cls (fun c => c = '-'))
      (.seq (reUpTo dCls 2)
        (.seq (.cls (fun c => c = '-')) (reUpTo dCls 2))))

/-- `r'\b\d+00\.00\b'` — suspicious round amounts (fraud service). -/
def roundNumbersRE : RE :=
  .seq .bound (.seq (reAtLeast dCls 1) (.seq (reLit "00.00") .bound))

/-- `r'(\$\d+\.?\d*)'` — duplicate-amount pattern (fraud service). -/
def dupAmountsRE : RE :=
  .group (.seq (.cls (fun c => c = '$'))
    (.seq (reAtLeast dCls 1) (.seq (.opt (.cls (fun c => c = '.'))) (.star dCls))))

/-- `r'\b[A-Za-z0-9._%+-]+@[A-Za-z0-9.-]+\.[A-Z|a-z]{2,}\b'`. -/
def emailRE : RE :=
  .seq .bound
    (.seq (reAtLeast (.cls (fun c => c.isAlpha || c.isDigit || c = '.' ||
        c = '_' || c = '%' || c = '+' || c = '-')) 1)
      (.seq (.cls (fun c => c = '@'))
        (.seq (reAtLeast (.cls (fun c => c.isAlpha || c.isDigit || c = '.' ||
            c = '-')) 1)
          (.seq (.cls (fun c => c = '.'))
            (.seq (reAtLeast (.cls (fun c => c.isAlpha || c = '|')) 2)
              .bound)))))

/-- `r'\b\d{3}[-.]?\d{3}[-.]?\d{4}\b'`. -/
def phoneRE : RE :=
  .seq .bound
    (.seq (reRepeat dCls 3)
      (.seq (.opt (.cls (fun c => c = '-' || c = '.')))
        (.seq (reRepeat dCls 3)
          (.seq (.opt (.cls (fun c => c = '-' || c = '.')))
            (.seq (reRepeat dCls 4) .bound)))))

/-- `r'\b[A-HJ-NPR-Z0-9]{17}\b'` — VIN. -/
def vinRE : RE :=
  .seq .bound
    (.seq (reRepeat (.cls (fun c => c.isDigit ||
      (c.isUpper && c ≠ 'I' && c ≠ 'O' && c ≠ 'Q'))) 17) .bound)

/-- `r'\b[A-Z]\d{2}(?:\.\d{1,2})?\b'` — ICD-like codes. -/
def icdRE : RE :=
  .seq .bound
    (.seq (.cls Char.isUpper)
      (.seq (reRepeat dCls 2)
        (.seq (.opt (.seq (.cls (fun c => c = '.')) (reUpTo dCls 2))) .bound)))

/-- `r'\b\d{5}\b'` — CPT-like codes. -/
def cptRE : RE :=
  .seq .bound (.seq (reRepeat dCls 5) .bound)

/-- `r'xxx+'` under `re.IGNORECASE`. -/
def xxxRE : RE :=
  .seq (reLitCI "xx") (reAtLeast (.cls (fun c => c.toLower = 'x')) 1)

/-- `r'\[.*\]'` (`.` does not cross newlines). -/
def bracketRE : RE :=
  .seq (.cls (fun c => c = '[')) (.seq (.star dotCls) (.cls (fun c => c = ']')))

/-- `r'<.*>'`. -/
def angleRE : RE :=
  .seq (.cls (fun c => c = '<')) (.seq (.star dotCls) (.cls (fun c => c = '>')))

/-- `r'\d+[,.]?\d*'` — number-format pattern in
`_has_formatting_inconsistencies`. -/
def numFormatRE : RE :=
  .seq (reAtLeast dCls 1)
    (.seq (.opt (.cls (fun c => c = ',' || c = '.'))) (.star dCls))

/-- `r'(.)\1{5,}'` — a backreference: six or more consecutive copies of one
non-newline character.  Implemented directly (the engine has no
backreferences): scan for a run of length ≥ 6. -/
def hasRepeatedRunAux : List Char → Char → ℕ → Bool
  | [], _, n => n ≥ 6
  | c :: t, cur, n =>
    if c = cur then
      if n + 1 ≥ 6 && cur ≠ '\n' then true else hasRepeatedRunAux t cur (n + 1)
    else hasRepeatedRunAux t c 1

def hasRepeatedRun (s : String) : Bool :=
  match s.toList with
  | [] => false
  | c :: t => hasRepeatedRunAux t c 1

/-- Character class `[A-Za-z\s]`. -/
def alphaSpaceCls : RE := .cls (fun c => c.isAlpha || isPySpace c)

/-- Character class `[A-Za-z0-9\s]`. -/
def alnumSpaceCls : RE := .cls (fun c => c.isAlpha || c.isDigit || isPySpace c)

/-- Character class `[A-Za-z0-9\s,.-]`. -/
def damageCls : RE :=
  .cls (fun c => c.isAlpha || c.isDigit || isPySpace c || c = ',' || c = '.' || c = '-')

/-- `r'(?:Patient|Name):\s*([A-Za-z\s]+)'` (IGNORECASE). -/
def patientRE1 : RE :=
  .seq (.alt (reLitCI "Patient") (reLitCI "Name"))
    (.seq (.cls (fun c => c = ':'))
      (.seq (.star sCls) (.group (reAtLeast alphaSpaceCls 1))))

/-- `r'Patient Name:\s*([A-Za-z\s]+)'` (IGNORECASE). -/
def patientRE2 : RE :=
  .seq (reLitCI "Patient Name:")
    (.seq (.star sCls) (.group (reAtLeast alphaSpaceCls 1)))

/-- `r'(?:Service|Date of Service):\s*(\d{1,2}/\d{1,2}/\d{4})'` (IGNORECASE). -/
def serviceRE1 : RE :=
  .seq (.alt (reLitCI "Service") (reLitCI "Date of Service"))
    (.seq (.cls (fun c => c = ':')) (.seq (.star sCls) (.group dateSlashRE)))

/-- `r'Date:\s*(\d{1,2}/\d{1,2}/\d{4})'` (IGNORECASE). -/
def serviceRE2 : RE :=
  .seq (reLitCI "Date:") (.seq (.star sCls) (.group dateSlashRE))

/-- `r'(?:Provider|Doctor|Physician):\s*([A-Za-z\s]+)'` (IGNORECASE). -/
def providerRE1 : RE :=
  .seq (.alt (reLitCI "Provider") (.alt (reLitCI "Doctor") (reLitCI "Physician")))
    (.seq (.cls (fun c => c = ':'))
      (.seq (.star sCls) (.group (reAtLeast alphaSpaceCls 1))))

/-- `r'(?:Hospital|Clinic):\s*([A-Za-z\s]+)'` (IGNORECASE). -/
def providerRE2 : RE :=
  .seq (.alt (reLitCI "Hospital") (reLitCI "Clinic"))
    (.seq (.cls (fun c => c = ':'))
      (.seq (.star sCls) (.group (reAtLeast alphaSpaceCls 1))))

/-- `r'(\d{4})\s+([A-Za-z]+)\s+([A-Za-z]+)'` — year / make / model. -/
def vehicleRE1 : RE :=
  .seq (.group (reRepeat dCls 4))
    (.seq (reAtLeast sCls 1)
      (.seq (.group (reAtLeast (.cls Char.isAlpha) 1))
        (.seq (reAtLeast sCls 1) (.group (reAtLeast (.cls Char.isAlpha) 1)))))

/-- `r'Vehicle:\s*([A-Za-z0-9\s]+)'` (IGNORECASE). -/
def vehicleRE2 : RE :=
  .seq (reLitCI "Vehicle:")
    (.seq (.star sCls) (.group (reAtLeast alnumSpaceCls 1)))

/-- `r'(?:Damage|Description):\s*([A-Za-z0-9\s,.-]+)'` (IGNORECASE). -/
def damageRE1 : RE :=
  .seq (.alt (reLitCI "Damage") (reLitCI "Description"))
    (.seq (.cls (fun c => c = ':'))
      (.seq (.star sCls) (.group (reAtLeast damageCls 1))))

/-- `r'(?:Repair|Fix):\s*([A-Za-z0-9\s,.-]+)'` (IGNORECASE). -/
def damageRE2 : RE :=
  .seq (.alt (reLitCI "Repair") (reLitCI "Fix"))
    (.seq (.cls (fun c => c = ':'))
      (.seq (.star sCls) (.group (reAtLeast damageCls 1))))

/-- `r'(?:Invoice|Receipt)\s*#?\s*(\w+)'` (IGNORECASE). -/
def invoiceRE1 : RE :=
  .seq (.alt (reLitCI "Invoice") (reLitCI "Receipt"))
    (.seq (.star sCls)
      (.seq (.opt (.cls (fun c => c = '#')))
        (.seq (.star sCls) (.group (reAtLeast wCls 1)))))

/-- `r'(?:Number|No):\s*(\w+)'` (IGNORECASE). -/
def invoiceRE2 : RE :=
  .seq (.alt (reLitCI "Number") (reLitCI "No"))
    (.seq (.cls (fun c => c = ':'))
      (.seq (.star sCls) (.group (reAtLeast wCls 1))))

/-- `r'(?:From|Vendor|Company):\s*([A-Za-z\s]+)'` (IGNORECASE). -/
def vendorRE1 : RE :=
  .seq (.alt (reLitCI "From") (.alt (reLitCI "Vendor") (reLitCI "Company")))
    (.seq (.cls (fun c => c = ':'))
      (.seq (.star sCls) (.group (reAtLeast alphaSpaceCls 1))))

/-- `r'(?:Merchant|Business):\s*([A-Za-z\s]+)'` (IGNORECASE). -/
def vendorRE2 : RE :=
  .seq (.alt (reLitCI "Merchant") (reLitCI "Business"))
    (.seq (.cls (fun c => c = ':'))
      (.seq (.star sCls) (.group (reAtLeast alphaSpaceCls 1))))

/-! ## Fraud Detection Service (`fraud_detection_service.py`) -/

/-- `self.fraud_keywords`. -/
def fraudKeywords : List String :=
  ["fake", "forged", "altered", "modified", "suspicious",
   "emergency", "urgent", "immediate", "rush", "asap",
   "cash only", "no receipt", "lost receipt", "damaged receipt"]

/-- `self.amount_thresholds[claim_type]`: (low, high, avg). -/
structure AmountThresholds where
  low : ℚ
  high : ℚ
  avg : ℚ

def amountThresholds (claimType : String) : AmountThresholds :=
  if claimType = "health" then ⟨100, 50000, 2500⟩
  else if claimType = "vehicle" then ⟨500, 100000, 5000⟩
  else if claimType = "travel" then ⟨50, 10000, 800⟩
  else if claimType = "product_warranty" then ⟨20, 5000, 300⟩
  else if claimType = "pet" then ⟨100, 15000, 1200⟩
  else if claimType = "agricultural" then ⟨1000, 500000, 25000⟩
  else ⟨100, 50000, 2500⟩   -- `.get(claim_type, self.amount_thresholds["health"])`

/-- The combined feature dictionary built by `analyze_text`.  In that flow all
seven weighted features are always present, so the dictionary is modelled as a
structure with total fields. -/
structure Features where
  text_length : ℕ
  word_count : ℕ
  sentence_count : ℕ
  fraud_keyword_count : ℕ
  fraud_keyword_ratio : ℚ
  detected_fraud_keywords : List String
  uppercase_ratio : ℚ
  punctuation_ratio : ℚ
  word_repetition_ratio : ℚ
  extracted_amounts : List ℚ
  amount_count : ℕ
  max_extracted_amount : ℚ
  amount_consistency : ℚ
  round_amount_ratio : ℚ
  amount_anomaly_score : ℚ
  missing_info_count : ℕ
  suspicious_indicators : List String
  suspicious_pattern_count : ℕ
  consistency_issues : List String
  consistency_score : ℚ
deriving DecidableEq

/-- `_extract_text_features` (the text-statistics part of `Features`). -/
def extractTextFeatures (text : String) : Features → Features := fun f =>
  let words := pySplit text
  let textLower := pyLower text
  let detected := fraudKeywords.filter (fun kw => strContains textLower kw)
  let lowerWords := pySplit textLower
  let uniqueWords := lowerWords.dedup
  { f with
    text_length := text.length
    word_count := words.length
    sentence_count := (pySplitOn text (Char.ofNat 46)).length
    fraud_keyword_count := detected.length
    fraud_keyword_ratio := (detected.length : ℚ) / pyMax (words.length : ℚ) 1
    detected_fraud_keywords := detected
    uppercase_ratio :=
      ((text.toList.countP Char.isUpper : ℚ)) / pyMax (text.length : ℚ) 1
    punctuation_ratio :=
      ((text.toList.countP (fun c => ("!@#$%^&*()".toList).contains c) : ℚ)) /
        pyMax (text.length : ℚ) 1
    word_repetition_ratio :=
      1 - (uniqueWords.length : ℚ) / pyMax (lowerWords.length : ℚ) 1 }

/-- `clean_amount = re.sub(r'[^\d.]', '', amount_str)`. -/
def cleanAmount (s : String) : String :=
  String.mk (s.toList.filter (fun c => c.isDigit || c = '.'))

/-- Python `float` on a cleaned amount string; `none` models `ValueError`.
The strings reaching it are digits with at most one dot. -/
def parseAmount (s : String) : Option ℚ :=
  let parts := pySplitOn s (Char.ofNat 46)
  match parts with
  | [d] => if d = "" then none else some (natOfDigits d : ℚ)
  | [d, f] =>
    if d = "" && f = "" then none
    else some ((natOfDigits d : ℚ) + (natOfDigits f : ℚ) / (10 ^ f.length : ℚ))
  | _ => none

/-- The two-step filter of `_analyze_amounts` / `_extract_amounts`:
`if clean_amount and '.' in clean_amount: amounts.append(float(clean_amount))`
(with `ValueError` skipping the entry). -/
def amountOfMatch (m : String) : Option ℚ :=
  let c := cleanAmount m
  if c ≠ "" ∧ strContains c "." = true then parseAmount c else none

/-- The extracted-amounts list of `_analyze_amounts` (fraud service). -/
def extractedAmountsFraud (text : String) : List ℚ :=
  (reFindAll amountLooseRE text).filterMap amountOfMatch

/-- Float `amt % 100 == 0` for the extracted amounts (which all carry exactly
two decimals, so the float modulus is exact). -/
def isMultipleOf100 (amt : ℚ) : Bool :=
  (amt / 100).den = 1

/-- `_analyze_amounts`. -/
def analyzeAmounts (text claimType : String) (requestedAmount : ℚ)
    (f : Features) : Features :=
  let amounts := extractedAmountsFraud text
  let f := { f with extracted_amounts := amounts, amount_count := amounts.length }
  let f :=
    if amounts ≠ [] then
      let maxAmount := amounts.foldl pyMax (amounts.headD 0)
      let roundAmounts := amounts.filter (fun a => isMultipleOf100 a && a > 100)
      { f with
        max_extracted_amount := maxAmount
        amount_consistency :=
          pyAbs (maxAmount - requestedAmount) / pyMax requestedAmount 1
        round_amount_ratio :=
          (roundAmounts.length : ℚ) / pyMax (amounts.length : ℚ) 1 }
    else
      { f with
        max_extracted_amount := 0
        amount_consistency := 1   -- no amounts found - suspicious
        round_amount_ratio := 0 }
  let t := amountThresholds claimType
  if requestedAmount < t.low then { f with amount_anomaly_score := 3/10 }
  else if requestedAmount > t.high then { f with amount_anomaly_score := 4/5 }
  else
    let rangePosition := (requestedAmount - t.low) / (t.high - t.low)
    { f with amount_anomaly_score := pyMin (1/5) (pyAbs (rangePosition - 1/2)) }

/-- `self.suspicious_patterns["missing_info"]`. -/
def missingInfoPatterns : List String := ["N/A", "Unknown", "TBD", "--"]

/-- Parse one `m/d/yyyy` string into a day ordinal; `none` models the
`ValueError` of `datetime(year, month, day)`. -/
def parseSlashDate (s : String) : Option ℕ :=
  match pySplitOn s (Char.ofNat 47) with
  | [m, d, y] =>
    let mo := natOfDigits m
    let da := natOfDigits d
    let yr := natOfDigits y
    if dateValid yr mo da then some (dayOrdinal yr mo da) else none
  | _ => none

/-- `_check_suspicious_patterns`. -/
def checkSuspiciousPatterns (text : String) (f : Features) : Features :=
  let roundMatches := reFindAll roundNumbersRE text
  let ind0 : List String :=
    if roundMatches ≠ [] then
      ["Round number amounts: " ++ pyReprStrList roundMatches]
    else []
  let missing := missingInfoPatterns.filter
    (fun p => strContains (pyLower text) (pyLower p))
  let ind1 := ind0 ++ missing.map (fun p => "Missing information indicator: " ++ p)
  let amounts := reFindAll dupAmountsRE text
  let ind2 :=
    if amounts.length ≠ amounts.dedup.length && amounts.length > 1 then
      ind1 ++ ["Duplicate amounts detected"]
    else ind1
  let dates := reFindAll dateSlashRE text
  let ind3 :=
    if dates.length > 1 then
      -- the whole parse loop sits in one `try`: the first invalid date
      -- aborts it and the `except` appends "Invalid date format detected"
      if dates.all (fun d => (parseSlashDate d).isSome) then
        let ordinals := dates.filterMap parseSlashDate
        if daySpan ordinals > 365 then ind2 ++ ["Inconsistent dates detected"]
        else ind2
      else ind2 ++ ["Invalid date format detected"]
    else ind2
  { f with
    missing_info_count := missing.length
    suspicious_indicators := ind3
    suspicious_pattern_count := ind3.length }

/-- `_check_health_consistency`. -/
def checkHealthConsistency (text : String) : List String :=
  let t := pyLower text
  let i0 :=
    if strContains t "surgery" && strContains t "outpatient" &&
        !strContains t "minor" && !strContains t "same day" then
      ["Surgery and outpatient treatment may be inconsistent"]
    else []
  let i1 :=
    if strContains t "emergency" && strContains t "routine" then
      i0 ++ ["Emergency and routine treatment mentioned together"]
    else i0
  if strContains t "chronic" && strContains t "sudden" then
    i1 ++ ["Chronic and sudden condition mentioned together"]
  else i1

/-- `_check_vehicle_consistency`. -/
def checkVehicleConsistency (text : String) : List String :=
  let t := pyLower text
  let i0 :=
    if strContains t "minor damage" &&
        (strContains t "total loss" || strContains t "severe" ||
         strContains t "major") then
      ["Minor damage inconsistent with severity indicators"]
    else []
  let i1 :=
    if strContains t "low speed" && strContains t "extensive damage" then
      i0 ++ ["Low speed inconsistent with extensive damage"]
    else i0
  if strContains t "parking lot" && strContains t "high speed" then
    i1 ++ ["High speed in parking lot seems inconsistent"]
  else i1

/-- The contradiction table of `_check_general_consistency`. -/
def generalContradictions : List (List String × List String) :=
  [(["new", "brand new"], ["old", "used", "worn"]),
   (["expensive", "costly"], ["cheap", "inexpensive"]),
   (["working", "functional"], ["broken", "damaged"])]

/-- `_check_general_consistency`. -/
def checkGeneralConsistency (text : String) : List String :=
  let t := pyLower text
  generalContradictions.filterMap (fun pr =>
    if pr.1.any (fun w => strContains t w) && pr.2.any (fun w => strContains t w)
    then some ("Contradictory terms detected: " ++ pyReprStrList pr.1 ++
      " vs " ++ pyReprStrList pr.2)
    else none)

/-- `_analyze_consistency`. -/
def analyzeConsistency (text claimType : String) (f : Features) : Features :=
  let issues :=
    if claimType = "health" then checkHealthConsistency text
    else if claimType = "vehicle" then checkVehicleConsistency text
    else if claimType = "travel" ∨ claimType = "product_warranty" ∨
        claimType = "pet" ∨ claimType = "agricultural" then
      checkGeneralConsistency text
    else []
  { f with
    consistency_issues := issues
    consistency_score := pyMax 0 (1 - (issues.length : ℚ) * (1/5)) }

/-- Combine the four extractors exactly as `analyze_text` merges their
feature dictionaries (the field sets are disjoint, so the merge is the
function composition below, seeded by arbitrary defaults that every field
overwrites). -/
def combinedFeatures (text claimType : String) (requestedAmount : ℚ) :
    Features :=
  let f0 : Features :=
    { text_length := 0, word_count := 0, sentence_count := 0,
      fraud_keyword_count := 0, fraud_keyword_ratio := 0,
      detected_fraud_keywords := [], uppercase_ratio := 0,
      punctuation_ratio := 0, word_repetition_ratio := 0,
      extracted_amounts := [], amount_count := 0, max_extracted_amount := 0,
      amount_consistency := 0, round_amount_ratio := 0,
      amount_anomaly_score := 0, missing_info_count := 0,
      suspicious_indicators := [], suspicious_pattern_count := 0,
      consistency_issues := [], consistency_score := 0 }
  let f1 := extractTextFeatures text f0
  let f2 := analyzeAmounts text claimType requestedAmount f1
  let f3 := checkSuspiciousPatterns text f2
  analyzeConsistency text claimType f3

/-- `_calculate_fraud_score`: the weighted sum over the seven features.  All
seven are always present in the `analyze_text` flow, so `weight_sum` is the
full 1.0 and each `feature_name in features` test succeeds. -/
def calculateFraudScore (f : Features) : ℚ :=
  let s :=
    (1/4) * pyMin 1 (f.fraud_keyword_ratio * 5)
    + (1/5) * pyMin 1 (pyMax 0 f.amount_anomaly_score)
    + (3/20) * pyMin 1 ((f.suspicious_pattern_count : ℚ) * (1/5))
    + (3/20) * (1 - f.consistency_score)
    + (1/10) * pyMin 1 f.amount_consistency
    + (1/10) * pyMin 1 (f.round_amount_ratio * 5)
    + (1/20) * pyMin 1 ((f.missing_info_count : ℚ) * (1/5))
  let weightSum : ℚ := 1/4 + 1/5 + 3/20 + 3/20 + 1/10 + 1/10 + 1/20
  pyMin 1 (pyMax 0 (s / weightSum))

/-- `_calculate_confidence`. -/
def calculateConfidence (f : Features) (fraudScore : ℚ) : ℚ :=
  let c1 : ℚ :=
    if f.text_length > 100 then 4/5
    else if f.text_length > 50 then 3/5
    else 3/10
  let c2 : ℚ := if f.amount_count > 0 then 9/10 else 2/5
  let c3 : ℚ := if fraudScore > 7/10 ∨ fraudScore < 3/10 then 4/5 else 1/2
  (c1 + c2 + c3) / 3

/-- `_get_recommendation`. -/
def getRecommendation (fraudScore confidence : ℚ) : String :=
  if fraudScore > 7/10 ∧ confidence > 3/5 then "high_risk_reject"
  else if fraudScore > 1/2 then "manual_review_required"
  else if fraudScore < 3/10 ∧ confidence > 7/10 then "low_risk_approve"
  else "standard_review"

/-- The dictionary `analyze_text` returns.  The error path returns only
`fraud_score`, `issues` and `confidence`; the remaining keys are `Option`s
that the normal path fills. -/
structure FraudResult where
  fraud_score : ℚ
  confidence : ℚ
  issues : List String
  risk_factors : Option (List String)
  recommendation : Option String
  feature_analysis : Option Features
  claim_type : Option String

/-- `_generate_fraud_report`. -/
def generateFraudReport (f : Features) (fraudScore : ℚ) (claimType : String) :
    FraudResult :=
  let issues0 : List String :=
    if f.fraud_keyword_count > 0 then
      ["Suspicious keywords detected: " ++
        strJoin ", " f.detected_fraud_keywords]
    else []
  let risk0 : List String :=
    if f.fraud_keyword_count > 0 then ["suspicious_language"] else []
  let issues1 :=
    if f.amount_anomaly_score > 1/2 then
      issues0 ++ ["Claimed amount appears unusual for this type of claim"]
    else issues0
  let risk1 :=
    if f.amount_anomaly_score > 1/2 then risk0 ++ ["unusual_amount"] else risk0
  let issues2 :=
    if f.amount_consistency > 3/10 then
      issues1 ++ ["Inconsistency between claimed amount and extracted amounts"]
    else issues1
  let risk2 :=
    if f.amount_consistency > 3/10 then risk1 ++ ["amount_inconsistency"]
    else risk1
  let issues3 :=
    if f.suspicious_pattern_count > 0 then issues2 ++ f.suspicious_indicators
    else issues2
  let risk3 :=
    if f.suspicious_pattern_count > 0 then risk2 ++ ["suspicious_patterns"]
    else risk2
  let issues4 :=
    if f.consistency_score < 7/10 then issues3 ++ f.consistency_issues
    else issues3
  let risk4 :=
    if f.consistency_score < 7/10 then risk3 ++ ["internal_inconsistency"]
    else risk3
  let confidence := calculateConfidence f fraudScore
  { fraud_score := fraudScore
    confidence := confidence
    risk_factors := some risk4
    issues := issues4
    recommendation := some (getRecommendation fraudScore confidence)
    feature_analysis := some f
    claim_type := some claimType }

/-- `analyze_text`.  `err = some e` injects an exception raised inside the
`try` block (the source catches every exception and returns the neutral
report); `err = none` is the normal path. -/
def analyzeText (err : Option String) (text claimType : String)
    (requestedAmount : ℚ) : FraudResult :=
  match err with
  | some e =>
    { fraud_score := 1/2   -- neutral score on error
      issues := ["Analysis error: " ++ e]
      confidence := 0
      risk_factors := none
      recommendation := none
      feature_analysis := none
      claim_type := none }
  | none =>
    let f := combinedFeatures text claimType requestedAmount
    let fraudScore := calculateFraudScore f
    generateFraudReport f fraudScore claimType

/-! ## Document Validator (`document_validator.py`) -/

/-- One entry of `self.validation_rules`.  The amount/date patterns are
`Option`s because the `police_report` entry has no `amount_pattern` key and
the `general` entry has neither (`rules.get(...)` then returns `None`). -/
structure ValidationRules where
  required_fields : List String
  amount_pattern : Option RE
  date_pattern : Option RE
  min_text_length : ℕ
  expected_keywords : List String

def validationRules (documentType : String) : ValidationRules :=
  if documentType = "medical_bill" then
    { required_fields := ["patient_name", "service_date", "amount", "provider"]
      amount_pattern := some amountStrictRE
      date_pattern := some dateSlashRE
      min_text_length := 50
      expected_keywords := ["patient", "service", "bill", "medical", "treatment"] }
  else if documentType = "vehicle_estimate" then
    { required_fields := ["vehicle_info", "damage_description", "estimate_amount"]
      amount_pattern := some amountStrictRE
      date_pattern := some dateSlashRE
      min_text_length := 100
      expected_keywords := ["vehicle", "repair", "estimate", "damage", "parts", "labor"] }
  else if documentType = "invoice" then
    { required_fields := ["invoice_number", "date", "amount", "vendor"]
      amount_pattern := some amountStrictRE
      date_pattern := some dateSlashRE
      min_text_length := 30
      expected_keywords := ["invoice", "bill", "payment", "total", "due"] }
  else if documentType = "receipt" then
    { required_fields := ["date", "amount", "merchant"]
      amount_pattern := some amountStrictRE
      date_pattern := some dateSlashRE
      min_text_length := 20
      expected_keywords := ["receipt", "total", "paid", "transaction"] }
  else if documentType = "police_report" then
    { required_fields := ["report_number", "date", "incident_description"]
      amount_pattern := none
      date_pattern := some dateSlashRE
      min_text_length := 100
      expected_keywords := ["police", "report", "incident", "officer", "case", "accident"] }
  else   -- `self.validation_rules.get(document_type, self.validation_rules["general"])`
    { required_fields := []
      amount_pattern := none
      date_pattern := none
      min_text_length := 10
      expected_keywords := [] }

/-- `self.suspicious_indicators` of the validator. -/
def suspiciousIndicators : List String :=
  ["lorem ipsum", "sample text", "placeholder", "test document", "draft",
   "copy of copy", "duplicate"]

/-- The `text_stats` sub-dictionary of `_validate_text_content`. -/
structure TextStats where
  length : ℕ
  word_count : ℕ
  unique_words : ℕ
  repetition_ratio : ℚ
deriving DecidableEq

structure TextCheck where
  text_validation_issues : List String
  text_stats : TextStats

/-- `_validate_text_content`. -/
def validateTextContent (text : String) (rules : ValidationRules) : TextCheck :=
  let textLower := pyLower text
  let i0 : List String :=
    if text.length < rules.min_text_length then
      ["Text too short: " ++ natToString text.length ++
        " characters (minimum: " ++ natToString rules.min_text_length ++ ")"]
    else []
  let i1 := i0 ++ (suspiciousIndicators.filter (fun ind => strContains textLower ind)).map
    (fun ind => "Suspicious content detected: " ++ ind)
  let found := rules.expected_keywords.filter (fun kw => strContains textLower (pyLower kw))
  let i2 :=
    if rules.expected_keywords ≠ [] &&
        (found.length : ℚ) < (rules.expected_keywords.length : ℚ) * (1/2) then
      i1 ++ ["Missing expected keywords. Found: " ++ pyReprStrList found]
    else i1
  let wordCount := (pySplit text).length
  let i3 := if wordCount < 5 then i2 ++ ["Text has too few words"] else i2
  let words := pySplit textLower
  let uniqueWords := words.dedup
  let repetitionRatio : ℚ :=
    if words ≠ [] then 1 - (uniqueWords.length : ℚ) / (words.length : ℚ) else 0
  let i4 :=
    if repetitionRatio > 7/10 then i3 ++ ["Excessive word repetition detected"]
    else i3
  { text_validation_issues := i4
    text_stats :=
      { length := text.length, word_count := wordCount,
        unique_words := uniqueWords.length, repetition_ratio := repetitionRatio } }

/-- `_is_reasonable_date`.  `now` is `datetime.now()` as a (fractional) day
ordinal, a parameter of the model. -/
def isReasonableDate (now : ℚ) (dateStr : String) : Bool :=
  match pySplitOn dateStr (Char.ofNat 47) with
  | [ms, ds, ys] =>
    let m := natOfDigits ms
    let d := natOfDigits ds
    let y := natOfDigits ys
    if !(1 ≤ m && m ≤ 12) then false
    else if !(1 ≤ d && d ≤ 31) then false
    else if !(1900 ≤ y && y ≤ 2030) then false
    else if !dateValid y m d then false   -- datetime(...) raises ValueError
    else if (dayOrdinal y m d : ℚ) > now + 30 then false
    else true
  | _ => false

/-- `_validate_medical_bill_structure`. -/
def validateMedicalBillStructure (text : String) : List String :=
  let t := pyLower text
  let elements : List (String × List String) :=
    [("patient information", ["patient", "name"]),
     ("provider information", ["provider", "doctor", "hospital", "clinic"]),
     ("service information", ["service", "treatment", "procedure"]),
     ("billing information", ["bill", "charge", "amount", "total"])]
  let i0 := elements.filterMap (fun e =>
    if e.2.any (fun kw => strContains t kw) then none
    else some ("Missing " ++ e.1 ++ " section"))
  let icdCodes := reFindAll icdRE text
  let cptCodes := reFindAll cptRE text
  if icdCodes = [] && cptCodes = [] then
    i0 ++ ["No medical billing codes (ICD/CPT) found"]
  else i0

/-- `_validate_vehicle_estimate_structure`. -/
def validateVehicleEstimateStructure (text : String) : List String :=
  let t := pyLower text
  let elements : List (String × List String) :=
    [("vehicle information", ["vehicle", "car", "truck", "vin", "year", "make", "model"]),
     ("damage description", ["damage", "repair", "replace", "parts"]),
     ("cost breakdown", ["labor", "parts", "total", "estimate"])]
  let i0 := elements.filterMap (fun e =>
    if e.2.any (fun kw => strContains t kw) then none
    else some ("Missing " ++ e.1 ++ " section"))
  if !reTest vinRE text then i0 ++ ["No VIN number found"] else i0

/-- `_validate_invoice_structure`. -/
def validateInvoiceStructure (text : String) : List String :=
  let t := pyLower text
  let elements : List (String × List String) :=
    [("header", ["invoice", "receipt", "bill"]),
     ("vendor info", ["from", "vendor", "company", "business"]),
     ("amount", ["total", "amount", "due", "paid"])]
  elements.filterMap (fun e =>
    if e.2.any (fun kw => strContains t kw) then none
    else some ("Missing " ++ e.1 ++ " information"))

/-- `_validate_document_structure`. -/
def validateDocumentStructure (now : ℚ) (text documentType : String)
    (rules : ValidationRules) : List String :=
  let i0 : List String :=
    match rules.amount_pattern with
    | some re =>
      let amounts := reFindAll re text
      if amounts = [] then ["No monetary amounts found in expected format"]
      else if amounts.length > 10 then
        ["Too many monetary amounts detected (possible OCR errors)"]
      else []
    | none => []
  let i1 : List String :=
    match rules.date_pattern with
    | some re =>
      let dates := reFindAll re text
      if dates = [] then i0 ++ ["No dates found in expected format"]
      else i0 ++ (dates.filter (fun d => !isReasonableDate now d)).map
        (fun d => "Unreasonable date detected: " ++ d)
    | none => i0
  if documentType = "medical_bill" then i1 ++ validateMedicalBillStructure text
  else if documentType = "vehicle_estimate" then
    i1 ++ validateVehicleEstimateStructure text
  else if documentType = "invoice" ∨ documentType = "receipt" then
    i1 ++ validateInvoiceStructure text
  else i1

/-- `_has_formatting_inconsistencies`.  `np` is never imported in
`document_validator.py`, so `'np' in globals()` is `False`, the indentation
variance is always 0 and that branch never fires; only the mixed
comma/decimal count check remains live. -/
def hasFormattingInconsistencies (text : String) : Bool :=
  let amounts := reFindAll numFormatRE text
  if amounts ≠ [] then
    let commaAmounts := amounts.filter (fun a => strContains a ",")
    let dotAmounts := amounts.filter (fun a => strContains a ".")
    commaAmounts ≠ [] && dotAmounts ≠ [] &&
      commaAmounts.length ≠ dotAmounts.length
  else false

/-- `_has_unusual_characters`. -/
def hasUnusualCharacters (text : String) : Bool :=
  let specialCharCount :=
    text.toList.countP (fun c => !c.isAlphanum && !isPySpace c)
  if (specialCharCount : ℚ) > (text.length : ℚ) * (3/10) then true
  else hasRepeatedRun text

/-- The extracted-amounts list of `_extract_amounts` (document validator;
its body is identical to the one in `_analyze_amounts`). -/
def extractAmountsValidator (text : String) : List ℚ :=
  (reFindAll amountLooseRE text).filterMap amountOfMatch

/-- `_extract_dates`: the three date patterns, then `list(set(dates))`.
Python's set iteration order is unspecified; the model deduplicates keeping
one occurrence of each date.  Nothing downstream depends on the order: the
consumers take max/min over the parsed dates or test emptiness. -/
def extractDates (text : String) : List String :=
  (reFindAll dateSlashRE text ++ reFindAll dateDashRE text ++
    reFindAll dateIsoRE text).dedup

/-- `_has_data_integrity_issues`. -/
def hasDataIntegrityIssues (text : String) : Bool :=
  let amounts := extractAmountsValidator text
  if amounts ≠ [] && amounts.foldl pyMax (amounts.headD 0) > 1000000 then true
  else
    let dates := extractDates text
    if dates.length > 1 then
      -- the parse loop sits in a single `try`: the first ValueError
      -- (invalid calendar date) makes the function return True
      let slashDates := dates.filter (fun d => (pySplitOn d (Char.ofNat 47)).length = 3)
      if slashDates.all (fun d => (parseSlashDate d).isSome) then
        let parsed := dates.filterMap parseSlashDate
        decide (parsed ≠ [] ∧ daySpan parsed > 365)
      else true
    else false

/-- The placeholder patterns of `_validate_content_authenticity`, paired with
the way Python formats each pattern into the issue message. -/
def placeholderPatterns : List (RE × String) :=
  [(xxxRE, "xxx+"), (bracketRE, "\\[.*\\]"), (angleRE, "<.*>"),
   (reLitCI "placeholder", "placeholder"), (reLitCI "sample", "sample"),
   (reLitCI "lorem ipsum", "lorem ipsum")]

structure AuthCheck where
  authenticity_validation_issues : List String
  authenticity_score : ℚ

/-- `_validate_content_authenticity` (its `document_type` argument is unused
in the source body). -/
def validateContentAuthenticity (text _documentType : String) : AuthCheck :=
  let step := placeholderPatterns.foldl
    (fun (acc : List String × ℚ) p =>
      if reTest p.1 text then
        (acc.1 ++ ["Placeholder text detected: " ++ p.2], acc.2 - 1/5)
      else acc)
    ([], 1)
  let step :=
    if hasFormattingInconsistencies text then
      (step.1 ++ ["Formatting inconsistencies detected"], step.2 - 1/10)
    else step
  let step :=
    if hasUnusualCharacters text then
      (step.1 ++ ["Unusual character patterns detected"], step.2 - 1/10)
    else step
  let step :=
    if hasDataIntegrityIssues text then
      (step.1 ++ ["Data integrity issues detected"], step.2 - 1/5)
    else step
  { authenticity_validation_issues := step.1
    authenticity_score := pyMax 0 step.2 }

/-- The `extracted_data` dictionary.  Keys that the extraction may or may not
set are `Option`s; absent keys mean the key is not in the dictionary. -/
structure ExtractedData where
  emails : List String
  phones : List String
  amounts : List ℚ
  dates : List String
  patient_name : Option String := none
  service_date : Option String := none
  provider : Option String := none
  vin : Option String := none
  vehicle_year : Option String := none
  vehicle_make : Option String := none
  vehicle_model : Option String := none
  vehicle_info : Option String := none
  damage_description : Option String := none
  invoice_number : Option String := none
  vendor : Option String := none
deriving DecidableEq

def emptyExtractedData : ExtractedData :=
  { emails := [], phones := [], amounts := [], dates := [] }

/-- A value stored in `extracted_data`, with Python truthiness. -/
inductive EVal where
  | strList (l : List String)
  | numList (l : List ℚ)
  | str (s : String)

def EVal.truthy : EVal → Bool
  | .strList l => !l.isEmpty
  | .numList l => !l.isEmpty
  | .str s => s ≠ ""

/-- Dictionary lookup on `extracted_data` (`field in extracted_data` plus the
value itself).  Note the keys are `amounts`/`dates` (plural): required
fields such as `"amount"` or `"date"` are never present. -/
def ExtractedData.get? (d : ExtractedData) (k : String) : Option EVal :=
  if k = "emails" then some (.strList d.emails)
  else if k = "phones" then some (.strList d.phones)
  else if k = "amounts" then some (.numList d.amounts)
  else if k = "dates" then some (.strList d.dates)
  else if k = "patient_name" then d.patient_name.map .str
  else if k = "service_date" then d.service_date.map .str
  else if k = "provider" then d.provider.map .str
  else if k = "vin" then d.vin.map .str
  else if k = "vehicle_year" then d.vehicle_year.map .str
  else if k = "vehicle_make" then d.vehicle_make.map .str
  else if k = "vehicle_model" then d.vehicle_model.map .str
  else if k = "vehicle_info" then d.vehicle_info.map .str
  else if k = "damage_description" then d.damage_description.map .str
  else if k = "invoice_number" then d.invoice_number.map .str
  else if k = "vendor" then d.vendor.map .str
  else none

/-- First pattern of a list whose `re.search` hits; returns `group(1)`. -/
def firstGroup1 (pats : List RE) (text : String) : Option String :=
  match pats with
  | [] => none
  | p :: rest =>
    match reGroup1 p text with
    | some g => some g
    | none => firstGroup1 rest text

/-- `_extract_medical_data`. -/
def extractMedicalData (text : String) (d : ExtractedData) : ExtractedData :=
  let d := { d with patient_name :=
    (firstGroup1 [patientRE1, patientRE2] text).map pyStrip }
  let d := { d with service_date := firstGroup1 [serviceRE1, serviceRE2] text }
  { d with provider := (firstGroup1 [providerRE1, providerRE2] text).map pyStrip }

/-- `_extract_vehicle_data`. -/
def extractVehicleData (text : String) (d : ExtractedData) : ExtractedData :=
  let vinVal := (reSearch vinRE text).map
    (fun (m : List Char × List (List Char)) => String.mk m.1)
  let d := { d with vin := vinVal }
  let d :=
    match reGroups vehicleRE1 text with
    | some [y, mk, md] =>
      { d with vehicle_year := some y, vehicle_make := some mk,
               vehicle_model := some md }
    | _ =>
      match reGroup1 vehicleRE2 text with
      | some v => { d with vehicle_info := some (pyStrip v) }
      | none => d
  { d with damage_description :=
    (firstGroup1 [damageRE1, damageRE2] text).map pyStrip }

/-- `_extract_invoice_data`. -/
def extractInvoiceData (text : String) (d : ExtractedData) : ExtractedData :=
  let d := { d with invoice_number := firstGroup1 [invoiceRE1, invoiceRE2] text }
  { d with vendor := (firstGroup1 [vendorRE1, vendorRE2] text).map pyStrip }

/-- `_cross_validate_data`. -/
def crossValidateData (d : ExtractedData) (documentType : String) :
    List String :=
  let i0 : List String :=
    if d.dates.length > 1 then
      -- per-date try/except: an unparseable date is skipped (`continue`)
      let parsed := d.dates.filterMap parseSlashDate
      if parsed ≠ [] && daySpan parsed > 90 then
        ["Inconsistent dates detected"]
      else []
    else []
  let i1 : List String :=
    if d.amounts ≠ [] then
      let mx := d.amounts.foldl pyMax (d.amounts.headD 0)
      let mn := d.amounts.foldl pyMin (d.amounts.headD 0)
      if mx - mn > mx * (1/2) then ["Large variance in monetary amounts"]
      else []
    else []
  let i2 : List String :=
    if documentType = "medical_bill" then
      match d.patient_name, d.provider with
      | some patient, some provider =>
        if patient ≠ "" && provider ≠ "" &&
            pyLower patient = pyLower provider then
          ["Patient and provider names are identical"]
        else []
      | _, _ => []
    else []
  i0 ++ i1 ++ i2

structure DataCheck where
  data_validation_issues : List String
  data : ExtractedData

/-- `_extract_and_validate_data`. -/
def extractAndValidateData (text documentType : String)
    (rules : ValidationRules) : DataCheck :=
  let d0 : ExtractedData :=
    { emails := reFindAll emailRE text
      phones := reFindAll phoneRE text
      amounts := extractAmountsValidator text
      dates := extractDates text }
  let d1 :=
    if documentType = "medical_bill" then extractMedicalData text d0
    else if documentType = "vehicle_estimate" then extractVehicleData text d0
    else if documentType = "invoice" ∨ documentType = "receipt" then
      extractInvoiceData text d0
    else d0
  let requiredIssues := rules.required_fields.filterMap (fun fld =>
    match d1.get? fld with
    | some v => if v.truthy then none else some ("Required field missing: " ++ fld)
    | none => some ("Required field missing: " ++ fld))
  { data_validation_issues := requiredIssues ++ crossValidateData d1 documentType
    data := d1 }

/-! ### The result accumulator and the merge plumbing of `validate_document` -/

/-- The result dictionary of `validate_document` as it accumulates keys.
`authenticity_score` is listed although `_merge_validation_results` converts
it into `confidence` instead of storing it — the field stays `none` on every
path, and `_calculate_validation_score` therefore always reads its default
1.0.  `text_validation_issues`/`text_stats` are added by the
`dict.update` call, `data_dup` is the extra `"data"` key stored by the merge
of the extraction results. -/
structure ValidationResult where
  is_valid : Bool
  validation_score : ℚ
  issues : List String
  extracted_data : ExtractedData
  confidence : ℚ
  authenticity_score : Option ℚ := none
  text_validation_issues : Option (List String) := none
  text_stats : Option TextStats := none
  data_dup : Option ExtractedData := none

/-- A value of one key of a check's result dictionary. -/
inductive CheckVal where
  | issuesList (l : List String)
  | score (q : ℚ)
  | stats (t : TextStats)
  | ed (d : ExtractedData)

/-- `main_result[key] = value` for the keys that occur in this pipeline. -/
def setKey (m : ValidationResult) (k : String) (v : CheckVal) :
    ValidationResult :=
  match v with
  | .issuesList l =>
    if k = "text_validation_issues" then { m with text_validation_issues := some l }
    else m
  | .stats t => if k = "text_stats" then { m with text_stats := some t } else m
  | .ed d => if k = "data" then { m with data_dup := some d } else m
  | .score q =>
    if k = "authenticity_score" then { m with authenticity_score := some q }
    else m

/-- `validation_result.update(...)` — plain key assignment, used for the text
check only.  This is the path on which check issue lists do NOT reach
`issues`. -/
def dictUpdate (m : ValidationResult) (add : List (String × CheckVal)) :
    ValidationResult :=
  add.foldl (fun m kv => setKey m kv.1 kv.2) m

/-- `_merge_validation_results`: keys ending in `_issues` with list values
extend `issues`; `authenticity_score` is averaged into `confidence`;
anything else is assigned. -/
def mergeValidationResults (m : ValidationResult)
    (add : List (String × CheckVal)) : ValidationResult :=
  add.foldl (fun (m : ValidationResult) (kv : String × CheckVal) =>
    match kv.2 with
    | .issuesList l =>
      if strEndsWith kv.1 "_issues" then { m with issues := m.issues ++ l }
      else setKey m kv.1 (.issuesList l)
    | .score q =>
      if kv.1 = "authenticity_score" then
        { m with confidence := (m.confidence + q) / 2 }
      else setKey m kv.1 (.score q)
    | v => setKey m kv.1 v) m

def textCheckPairs (t : TextCheck) : List (String × CheckVal) :=
  [("text_validation_issues", .issuesList t.text_validation_issues),
   ("text_stats", .stats t.text_stats)]

def structurePairs (l : List String) : List (String × CheckVal) :=
  [("structure_validation_issues", .issuesList l)]

def authPairs (a : AuthCheck) : List (String × CheckVal) :=
  [("authenticity_validation_issues", .issuesList a.authenticity_validation_issues),
   ("authenticity_score", .score a.authenticity_score)]

def dataPairs (d : DataCheck) : List (String × CheckVal) :=
  [("data_validation_issues", .issuesList d.data_validation_issues),
   ("data", .ed d.data)]

/-- `_calculate_validation_score` (its internal `try` cannot fail on the
modelled arithmetic). -/
def calculateValidationScore (r : ValidationResult) : ℚ :=
  let base : ℚ := 1
  let base := base - pyMin (4/5) ((r.issues.length : ℚ) * (1/10))
  let base := base * r.confidence
  let authenticity := r.authenticity_score.getD 1
  let base := (base + authenticity) / 2
  pyMax 0 (pyMin 1 base)

/-- The result accumulator of `validate_document` just before the final
score computation: initial dictionary, then the four checks attached in
source order (the text check with `dict.update`, the rest with
`_merge_validation_results`, plus the explicit `extracted_data`
assignment). -/
def validateDocumentAccum (now : ℚ) (documentType extractedText : String) :
    ValidationResult :=
  let rules := validationRules documentType
  let v0 : ValidationResult :=
    { is_valid := true, validation_score := 1, issues := [],
      extracted_data := emptyExtractedData, confidence := 1 }
  -- `validation_result.update(text_validation)` — NOT the merge helper
  let v1 := dictUpdate v0 (textCheckPairs (validateTextContent extractedText rules))
  let v2 := mergeValidationResults v1
    (structurePairs (validateDocumentStructure now extractedText documentType rules))
  let v3 := mergeValidationResults v2
    (authPairs (validateContentAuthenticity extractedText documentType))
  let dataCheck := extractAndValidateData extractedText documentType rules
  let v4 := { v3 with extracted_data := dataCheck.data }
  mergeValidationResults v4 (dataPairs dataCheck)

/-- `validate_document`.  `err = some e` injects an exception inside the
outer `try` (caught and turned into the conservative error dictionary);
`now` is `datetime.now()` as a day ordinal; `content` (the raw bytes) and
`filename` are only logged by the source and do not influence the result. -/
def validateDocument (err : Option String) (now : ℚ) (_content : List ℕ)
    (_filename documentType : String) (extractedText : String) :
    ValidationResult :=
  match err with
  | some e =>
    { is_valid := false
      validation_score := 0
      issues := ["Validation error: " ++ e]
      extracted_data := emptyExtractedData
      confidence := 0 }
  | none =>
    let v5 := validateDocumentAccum now documentType extractedText
    let score := calculateValidationScore v5
    let v6 := { v5 with validation_score := score }
    { v6 with is_valid := decide (v6.validation_score ≥ 3/5) }

/-! ## Image Analysis Service (`image_analysis_service.py`)

cv2/numpy/PIL are external collaborators; a successfully decoded image is
represented by the numeric statistics the code computes from it.  Each
authenticity sub-detector wraps its cv2 computation in `try/except`; an
`Except.error` input to a detector models an exception raised inside that
body.  Dictionaries whose key set matters (`_assess_quality` returns
`"overall_score"` while `analyze_image` reads `["score"]`) are modelled by a
small Python-value type with explicit key lookup. -/

/-- A Python value (the fragment needed for these result dictionaries). -/
inductive PVal where
  | num (q : ℚ)
  | str (s : String)
  | bool (b : Bool)
  | list (xs : List PVal)
  | dict (xs : List (String × PVal))
  | pynone

/-- Dictionary lookup; `none` models a `KeyError`. -/
def PVal.get? : PVal → String → Option PVal
  | .dict xs, k => (xs.find? (fun kv => kv.1 = k)).map (fun kv => kv.2)
  | _, _ => none

/-- Statistics read by `_check_compression_artifacts`. -/
structure CompressionStats where
  freqVariance : ℚ
  blockVariance : ℚ

/-- `_check_compression_artifacts`: score on success, `0.0` from the
`except` branch on an internal exception. -/
def checkCompressionArtifacts (raw : Except String CompressionStats) : ℚ :=
  match raw with
  | .ok s => pyMin 1 ((s.freqVariance / 1000 + s.blockVariance / 100) / 2)
  | .error _ => 0

/-- Statistics read by `_check_noise_patterns`. -/
structure NoiseStats where
  noiseStd : ℚ
  magnitudeRatio : ℚ

/-- `_check_noise_patterns`: score on success, `0.0` on exception. -/
def checkNoisePatterns (raw : Except String NoiseStats) : ℚ :=
  match raw with
  | .ok s => pyMin 1 ((s.noiseStd / 50 + s.magnitudeRatio / 100) / 2)
  | .error _ => 0

/-- Statistics read by `_check_color_consistency`: how many of the 16 grid
regions are >2σ outliers. -/
structure ColorStats where
  outlierCount : ℕ

/-- `_check_color_consistency`: `outlier_count / len(regions)` with 16
regions on success, `0.0` on exception. -/
def checkColorConsistency (raw : Except String ColorStats) : ℚ :=
  match raw with
  | .ok s => (s.outlierCount : ℚ) / 16
  | .error _ => 0

/-- Statistics read by `_check_edge_discontinuities`. -/
structure EdgeStats where
  discontinuityCount : ℕ
  totalEdges : ℕ

/-- `_check_edge_discontinuities`: `discontinuity_count / max(total_edges, 1)`
on success, `0.0` on exception. -/
def checkEdgeDiscontinuities (raw : Except String EdgeStats) : ℚ :=
  match raw with
  | .ok s => (s.discontinuityCount : ℚ) / pyMax (s.totalEdges : ℚ) 1
  | .error _ => 0

/-- Raw EXIF content of the decoded image, as `_analyze_exif_data` reads it:
presence of EXIF, the `Make`/`Software` tag strings, and the values of the
three date/time tags that are present. -/
structure ExifRaw where
  hasExif : Bool
  softwareTags : List String
  dateValues : List String
  tagCount : ℕ

def editorNames : List String := ["photoshop", "gimp", "paint", "editor"]

/-- `_analyze_exif_data` (success path; its `except` branch would need the
PIL accessor itself to raise, which the model does not inject because no
claim concerns it). -/
def analyzeExifData (e : ExifRaw) : PVal :=
  let base : List String × Bool :=
    if !e.hasExif then (["No EXIF data found"], true)
    else
      let hits := e.softwareTags.filter (fun s =>
        editorNames.any (fun ed => strContains (pyLower s) ed))
      let step : List String × Bool :=
        (hits.map (fun s => "Image editing software detected: " ++ pyLower s),
         !hits.isEmpty)
      if e.dateValues.length > 1 &&
          !(e.dateValues.all (fun d => d = e.dateValues.headD "")) then
        (step.1 ++ ["Inconsistent date/time stamps in EXIF"], true)
      else step
  .dict [("suspicious", .bool base.2),
         ("issues", .list (base.1.map .str)),
         ("has_exif", .bool e.hasExif),
         ("exif_tags_count", .num (if e.hasExif then (e.tagCount : ℚ) else 0))]

/-- Statistics read by `_assess_quality`. -/
structure QualityStats where
  width : ℕ
  height : ℕ
  blurScore : ℚ
  brightness : ℚ
  contrast : ℚ

/-- All the per-image inputs of `analyze_image` once the image bytes have
decoded: each sub-detector's cv2 statistics (or an injected exception), the
EXIF content, the quality statistics, and the remaining cv2-derived results
(`_basic_image_analysis`, `_analyze_content`, `_assess_damage`) whose values
no claim constrains, carried as opaque already-built dictionaries. -/
structure DecodedImage where
  compression : Except String CompressionStats
  noise : Except String NoiseStats
  color : Except String ColorStats
  edge : Except String EdgeStats
  exif : ExifRaw
  quality : Except String QualityStats
  basicInfo : PVal := .dict []
  contentAnalysis : PVal := .dict []
  damageAnalysis : PVal := .dict []

/-- `_analyze_authenticity` (success path): 1.0 minus the per-detector
deductions, clamped to [0,1], returned with the sub-scores in a dictionary
whose `"score"` key holds the result. -/
def analyzeAuthenticity (img : DecodedImage) : PVal :=
  let compressionScore := checkCompressionArtifacts img.compression
  let noiseScore := checkNoisePatterns img.noise
  let colorScore := checkColorConsistency img.color
  let edgeScore := checkEdgeDiscontinuities img.edge
  let exifAnalysis := analyzeExifData img.exif
  let exifSuspicious : Bool :=
    match exifAnalysis.get? "suspicious" with
    | some (.bool b) => b
    | _ => false
  let s : ℚ := 1
  let ind0 : List PVal :=
    if compressionScore > 7/10 then
      [.str "Suspicious compression artifacts detected"]
    else []
  let s := if compressionScore > 7/10 then s - 1/5 else s
  let ind1 :=
    if noiseScore > 3/5 then ind0 ++ [.str "Unusual noise patterns detected"]
    else ind0
  let s := if noiseScore > 3/5 then s - 3/20 else s
  let ind2 :=
    if colorScore > 1/2 then ind1 ++ [.str "Color inconsistencies detected"]
    else ind1
  let s := if colorScore > 1/2 then s - 1/5 else s
  let ind3 :=
    if edgeScore > 4/5 then ind2 ++ [.str "Edge discontinuities suggest editing"]
    else ind2
  let s := if edgeScore > 4/5 then s - 1/4 else s
  let exifIssues :=
    match exifAnalysis.get? "issues" with
    | some (.list xs) => xs
    | _ => []
  let ind4 := if exifSuspicious then ind3 ++ exifIssues else ind3
  let s := if exifSuspicious then s - 1/10 else s
  let s := pyMax 0 (pyMin 1 s)
  .dict [("score", .num s),
         ("indicators", .list ind4),
         ("compression_score", .num compressionScore),
         ("noise_score", .num noiseScore),
         ("color_score", .num colorScore),
         ("edge_score", .num edgeScore),
         ("exif_analysis", exifAnalysis)]

/-- `_assess_quality`: note that neither branch produces a `"score"` key —
the success path stores the aggregate under `"overall_score"` and the
`except` branch does the same. -/
def assessQuality (raw : Except String QualityStats) : PVal :=
  match raw with
  | .error e => .dict [("overall_score", .num (1/2)), ("error", .str e)]
  | .ok st =>
    let totalPixels := st.width * st.height
    let resolution : PVal := .dict
      [("width", .num (st.width : ℚ)), ("height", .num (st.height : ℚ)),
       ("total_pixels", .num (totalPixels : ℚ)),
       ("quality", .str (if totalPixels > 1000000 then "high"
         else if totalPixels > 300000 then "medium" else "low"))]
    let sharpness : PVal := .dict
      [("score", .num st.blurScore),
       ("quality", .str (if st.blurScore > 100 then "sharp"
         else if st.blurScore > 50 then "acceptable" else "blurred"))]
    let exposure : PVal := .dict
      [("brightness", .num st.brightness), ("contrast", .num st.contrast),
       ("quality", .str (if 50 < st.brightness ∧ st.brightness < 200 ∧
          st.contrast > 20 then "good" else "poor"))]
    let resolutionScore := pyMin 1 ((totalPixels : ℚ) / 1000000)
    let sharpnessScore := pyMin 1 (st.blurScore / 200)
    let exposureScore : ℚ :=
      if 50 < st.brightness ∧ st.brightness < 200 ∧ st.contrast > 20 then 1
      else 1/2
    let overallScore := (resolutionScore + sharpnessScore + exposureScore) / 3
    .dict [("resolution", resolution), ("sharpness", sharpness),
           ("exposure", exposure), ("overall_score", .num overallScore)]

/-- `analyze_image` for an image whose bytes decode successfully.  The body
of the outer `try` builds the result dictionary, whose `"quality_score"`
entry evaluates `quality_analysis["score"]`; a missing key is a `KeyError`
that the broad `except` converts into the fallback dictionary with neutral
0.5 scores.  (Wall-clock `processing_time` is abstracted to 0.) -/
def analyzeImage (img : DecodedImage) (filename analysisType : String) : PVal :=
  let basicAnalysis := img.basicInfo
  let authenticityAnalysis := analyzeAuthenticity img
  let contentAnalysis := img.contentAnalysis
  let damageAnalysis : Option PVal :=
    if analysisType = "vehicle" ∨ analysisType = "health" ∨
        analysisType = "property" then some img.damageAnalysis
    else none
  let qualityAnalysis := assessQuality img.quality
  let tryBody : Except String PVal := do
    let aScore ← match authenticityAnalysis.get? "score" with
      | some v => Except.ok v
      | none => Except.error "KeyError: score"
    let qScore ← match qualityAnalysis.get? "score" with
      | some v => Except.ok v
      | none => Except.error "KeyError: score"
    let base : List (String × PVal) :=
      [("filename", .str filename),
       ("analysis_type", .str analysisType),
       ("authenticity_score", aScore),
       ("quality_score", qScore),
       ("processing_time", .num 0),
       ("basic_info", basicAnalysis),
       ("authenticity_details", authenticityAnalysis),
       ("content_analysis", contentAnalysis),
       ("quality_details", qualityAnalysis)]
    match damageAnalysis with
    | some d =>
      Except.ok (.dict (base ++ [("damage_assessment", d),
        ("estimated_cost", (d.get? "estimated_cost").getD (.num 0))]))
    | none => Except.ok (.dict base)
  match tryBody with
  | .ok result => result
  | .error e =>
    .dict [("filename", .str filename),
           ("error", .str e),
           ("authenticity_score", .num (1/2)),
           ("quality_score", .num (1/2)),
           ("processing_time", .num 0)]

/-- A fully uniform, metadata-rich, artifact-free synthetic image: every
sub-detector statistic is zero (far below every tampering threshold), EXIF is
present with consistent software and date tags. -/
def cleanImage : DecodedImage :=
  { compression := .ok { freqVariance := 0, blockVariance := 0 }
    noise := .ok { noiseStd := 0, magnitudeRatio := 0 }
    color := .ok { outlierCount := 0 }
    edge := .ok { discontinuityCount := 0, totalEdges := 0 }
    exif := { hasExif := true, softwareTags := ["AcmeCam"],
              dateValues := ["2024:01:02 10:00:00", "2024:01:02 10:00:00"],
              tagCount := 24 }
    quality := .ok { width := 100, height := 100, blurScore := 0,
                     brightness := 128, contrast := 30 } }

/-! ## Theorems for the claims -/

/-- The C2 scenario narrative. -/
def c2Text : String := "Emergency surgery needed ASAP, cash only, no receipt"

/-- Claim C2, counterexample: on the scenario input (narrative
`"Emergency surgery needed ASAP, cash only, no receipt"`, category `health`,
claimed amount 50000) the fraud score is 0.39, which is not `> 0.5` as the
claim states. -/
theorem C2_counterexample :
    (analyzeText none c2Text "health" 50000).fraud_score = 39/100 ∧
    ¬ ((analyzeText none c2Text "health" 50000).fraud_score > 1/2) := by
  constructor
  · decide
  · decide

/-- Claim C2, amended: on the scenario input `analyze_text` returns
fraud score exactly 0.39 (hence not `> 0.5`), and the risk-factor list does
contain `"suspicious_language"` (four fraud keywords hit). -/
theorem C2_scenario_report :
    (analyzeText none c2Text "health" 50000).fraud_score = 39/100 ∧
    ((analyzeText none c2Text "health" 50000).risk_factors.getD []).contains
      "suspicious_language" = true := by
  constructor
  · decide
  · decide

/-- Claim C7: `analyze_text` never propagates an exception (the model is a
total function covering both paths) and on an internal error it returns
exactly fraud score 0.5, confidence 0.0 and the error message as the single
issue, with no other report fields. -/
theorem C7_analyze_text_error_path (e text claimType : String)
    (amount : ℚ) :
    analyzeText (some e) text claimType amount =
      { fraud_score := 1/2
        confidence := 0
        issues := ["Analysis error: " ++ e]
        risk_factors := none
        recommendation := none
        feature_analysis := none
        claim_type := none } := rfl

/-- Claim C8: the fraud score is monotone in the fraud-keyword ratio — if two
feature bags agree on the six other weighted features and the second has a
fraud-keyword ratio at least as large (the claim's "second text adds fraud
keyword occurrences, all other extracted features unchanged"), its fraud
score is at least as large. -/
theorem C8_fraud_score_monotone (f g : Features)
    (h1 : f.amount_anomaly_score = g.amount_anomaly_score)
    (h2 : f.suspicious_pattern_count = g.suspicious_pattern_count)
    (h3 : f.consistency_score = g.consistency_score)
    (h4 : f.amount_consistency = g.amount_consistency)
    (h5 : f.round_amount_ratio = g.round_amount_ratio)
    (h6 : f.missing_info_count = g.missing_info_count)
    (h7 : f.fraud_keyword_ratio ≤ g.fraud_keyword_ratio) :
    calculateFraudScore f ≤ calculateFraudScore g := by
  unfold calculateFraudScore
  simp only [pyMin_eq, pyMax_eq]
  rw [h1, h2, h3, h4, h5, h6]
  have hmin : min 1 (f.fraud_keyword_ratio * 5) ≤
      min 1 (g.fraud_keyword_ratio * 5) :=
    min_le_min le_rfl (by linarith)
  apply min_le_min le_rfl
  apply max_le_max le_rfl
  exact (div_le_div_iff_of_pos_right (by norm_num)).mpr (by linarith)

/-- Witness for C8 at concrete feature bags differing only in the
fraud-keyword ratio. -/
theorem C8_fraud_score_monotone_witness :
    calculateFraudScore (combinedFeatures "claim for damage" "health" 200) ≤
      calculateFraudScore
        (combinedFeatures "urgent claim for damage" "health" 200) := by
  apply C8_fraud_score_monotone <;> decide

/-- Claim C3, counterexample: on the empty-text medical bill the text-quality
check does produce the minimum-length issue, but that issue is absent from
the final `issues` list — so `issues` is not the concatenation of all four
check results (the text check's results are attached with `dict.update` and
never merged into `issues`). -/
theorem C3_counterexample :
    "Text too short: 0 characters (minimum: 50)" ∈
      (validateTextContent "" (validationRules "medical_bill")).text_validation_issues ∧
    "Text too short: 0 characters (minimum: 50)" ∉
      (validateDocument none 739000 [] "claim.pdf" "medical_bill" "").issues := by
  constructor
  · decide
  · decide

/-- Claim C3, amended: on the non-error path the final `issues` list is the
concatenation, in order, of the structural check's, the authenticity check's
and the extraction check's issue lists only; the text-quality check's issues
are stored under the separate `text_validation_issues` key and never reach
`issues`. -/
theorem C3_issues_concatenation (now : ℚ) (content : List ℕ)
    (filename documentType text : String) :
    (validateDocument none now content filename documentType text).issues =
      (validateDocumentStructure now text documentType
          (validationRules documentType) ++
        (validateContentAuthenticity text documentType).authenticity_validation_issues) ++
        (extractAndValidateData text documentType
          (validationRules documentType)).data_validation_issues ∧
    (validateDocument none now content filename documentType text).text_validation_issues =
      some (validateTextContent text
        (validationRules documentType)).text_validation_issues := by
  exact ⟨rfl, rfl⟩

/-- Claim C4, counterexample: for the empty extracted text (< 50 characters)
declared as a medical bill, `validate_document` returns `is_valid = true`
(the score is exactly 0.6) and no issue mentioning the minimum length appears
in `issues`. -/
theorem C4_counterexample :
    (validateDocument none 739000 [] "bill.pdf" "medical_bill" "").is_valid = true ∧
    "Text too short: 0 characters (minimum: 50)" ∉
      (validateDocument none 739000 [] "bill.pdf" "medical_bill" "").issues := by
  constructor
  · decide
  · decide

/-- Helper: a short text always puts the minimum-length issue at the head of
the text-quality check's issue list. -/
theorem validateTextContent_short_mem (text : String) (rules : ValidationRules)
    (h : text.length < rules.min_text_length) :
    ("Text too short: " ++ natToString text.length ++
        " characters (minimum: " ++ natToString rules.min_text_length ++ ")") ∈
      (validateTextContent text rules).text_validation_issues := by
  simp only [validateTextContent]
  rw [if_pos h]
  split_ifs <;> simp [List.mem_append]

/-- Claim C4, amended: for every medical-bill input with extracted text
shorter than 50 characters the minimum-length issue is recorded — but only
under the result's `text_validation_issues` key (it never reaches `issues`,
and `is_valid` is not forced to false, as the counterexample shows). -/
theorem C4_short_medical_bill (now : ℚ) (content : List ℕ)
    (filename text : String) (h : text.length < 50) :
    ("Text too short: " ++ natToString text.length ++
        " characters (minimum: " ++ natToString 50 ++ ")") ∈
      (validateDocument none now content filename "medical_bill"
        text).text_validation_issues.getD [] := by
  have hres : (validateDocument none now content filename "medical_bill"
      text).text_validation_issues =
      some (validateTextContent text
        (validationRules "medical_bill")).text_validation_issues := rfl
  rw [hres, Option.getD_some]
  exact validateTextContent_short_mem text (validationRules "medical_bill") h

/-- Witness for C4 (amended) at the empty text. -/
theorem C4_short_medical_bill_witness :
    "".length < 50 ∧
    ("Text too short: 0 characters (minimum: 50)") ∈
      (validateDocument none 739000 [] "w.pdf" "medical_bill"
        "").text_validation_issues.getD [] :=
  ⟨by decide, C4_short_medical_bill 739000 [] "w.pdf" "" (by decide)⟩

/-- `_calculate_validation_score` always lands in [0,1]. -/
theorem calculateValidationScore_bounds (r : ValidationResult) :
    0 ≤ calculateValidationScore r ∧ calculateValidationScore r ≤ 1 := by
  unfold calculateValidationScore
  simp only [pyMax_eq, pyMin_eq]
  constructor
  · exact le_max_left 0 _
  · exact max_le (by norm_num) (min_le_left 1 _)

/-- Claim C5: on every input and on both the normal and the error path,
`validation_score` lies in [0,1] and `is_valid` holds exactly when
`validation_score ≥ 0.6`. -/
theorem C5_validation_score_invariant (err : Option String) (now : ℚ)
    (content : List ℕ) (filename documentType text : String) :
    0 ≤ (validateDocument err now content filename documentType
        text).validation_score ∧
    (validateDocument err now content filename documentType
        text).validation_score ≤ 1 ∧
    ((validateDocument err now content filename documentType
        text).is_valid = true ↔
      (validateDocument err now content filename documentType
        text).validation_score ≥ 3/5) := by
  cases err with
  | some e =>
    have hv : (validateDocument (some e) now content filename documentType
        text).is_valid = false := rfl
    have hs : (validateDocument (some e) now content filename documentType
        text).validation_score = 0 := rfl
    rw [hv, hs]
    refine ⟨le_refl 0, by norm_num, ?_, ?_⟩
    · intro hfalse; cases hfalse
    · intro habs; norm_num at habs
  | none =>
    obtain ⟨h0, h1⟩ := calculateValidationScore_bounds
      (validateDocumentAccum now documentType text)
    refine ⟨h0, h1, ?_⟩
    have hv : (validateDocument none now content filename documentType
        text).is_valid = decide ((validateDocument none now content filename
          documentType text).validation_score ≥ 3/5) := rfl
    rw [hv]
    exact decide_eq_true_iff

/-- The placeholder-pattern fold of `_validate_content_authenticity` only
ever lowers the running score. -/
theorem authScoreFold_le (text : String) (l : List (RE × String))
    (acc : List String × ℚ) :
    (l.foldl (fun (acc : List String × ℚ) p =>
      if reTest p.1 text then
        (acc.1 ++ ["Placeholder text detected: " ++ p.2], acc.2 - 1/5)
      else acc) acc).2 ≤ acc.2 := by
  induction l generalizing acc with
  | nil => exact le_refl _
  | cons p t ih =>
    simp only [List.foldl_cons]
    refine le_trans (ih _) ?_
    split_ifs
    · dsimp only
      linarith
    · exact le_refl _

/-- The authenticity check's score always lands in [0,1]. -/
theorem validateContentAuthenticity_score_bounds (text dt : String) :
    0 ≤ (validateContentAuthenticity text dt).authenticity_score ∧
    (validateContentAuthenticity text dt).authenticity_score ≤ 1 := by
  have hfold : (placeholderPatterns.foldl (fun (acc : List String × ℚ) p =>
      if reTest p.1 text then
        (acc.1 ++ ["Placeholder text detected: " ++ p.2], acc.2 - 1/5)
      else acc) ([], 1)).2 ≤ 1 := authScoreFold_le text placeholderPatterns ([], 1)
  unfold validateContentAuthenticity
  dsimp only
  rw [pyMax_eq]
  refine ⟨le_max_left _ _, max_le (by norm_num) ?_⟩
  split_ifs <;> (try dsimp only) <;> linarith

/-- Claim C10: on the non-error path the returned confidence is exactly
`(1.0 + authenticity_score) / 2` — the initial confidence 1.0 averaged once
with the authenticity check's score — and therefore lies in [0.5, 1.0]
regardless of how many issues were detected. -/
theorem C10_confidence (now : ℚ) (content : List ℕ)
    (filename documentType text : String) :
    (validateDocument none now content filename documentType text).confidence =
      (1 + (validateContentAuthenticity text documentType).authenticity_score) / 2 ∧
    1/2 ≤ (validateDocument none now content filename documentType
      text).confidence ∧
    (validateDocument none now content filename documentType
      text).confidence ≤ 1 := by
  have hc : (validateDocument none now content filename documentType
      text).confidence =
      (1 + (validateContentAuthenticity text documentType).authenticity_score)
        / 2 := rfl
  obtain ⟨h0, h1⟩ := validateContentAuthenticity_score_bounds text documentType
  refine ⟨hc, ?_, ?_⟩ <;> rw [hc] <;> linarith

/-- Claim C9: both amount extractors keep a regex match only when its cleaned
digit string contains a decimal point, and a cents-less amount like `"$500"`
is matched by the regex but filtered out of the extracted amounts. -/
theorem C9_amount_extractors_decimal_filter :
    (∀ (text : String) (x : ℚ), x ∈ extractedAmountsFraud text →
      ∃ m, m ∈ reFindAll amountLooseRE text ∧
        strContains (cleanAmount m) "." = true ∧ amountOfMatch m = some x) ∧
    (∀ (text : String) (x : ℚ), x ∈ extractAmountsValidator text →
      ∃ m, m ∈ reFindAll amountLooseRE text ∧
        strContains (cleanAmount m) "." = true ∧ amountOfMatch m = some x) ∧
    reFindAll amountLooseRE "$500" = ["$500"] ∧
    extractedAmountsFraud "$500" = [] ∧
    extractAmountsValidator "$500" = [] := by
  have key : ∀ (text : String) (x : ℚ),
      x ∈ (reFindAll amountLooseRE text).filterMap amountOfMatch →
      ∃ m, m ∈ reFindAll amountLooseRE text ∧
        strContains (cleanAmount m) "." = true ∧ amountOfMatch m = some x := by
    intro text x hx
    obtain ⟨m, hm, hsome⟩ := List.mem_filterMap.mp hx
    refine ⟨m, hm, ?_, hsome⟩
    unfold amountOfMatch at hsome
    by_cases hcond : (cleanAmount m ≠ "" ∧ strContains (cleanAmount m) "." = true)
    · exact hcond.2
    · rw [if_neg hcond] at hsome
      cases hsome
  exact ⟨fun t x h => key t x h, fun t x h => key t x h,
    by decide, by decide, by decide⟩

/-- Witness for C9 at a concrete text carrying a cents-bearing amount. -/
theorem C9_amount_extractors_decimal_filter_witness :
    (3/2 : ℚ) ∈ extractedAmountsFraud "$1.50" ∧
    (∃ m, m ∈ reFindAll amountLooseRE "$1.50" ∧
      strContains (cleanAmount m) "." = true ∧ amountOfMatch m = some (3/2)) :=
  ⟨by decide, C9_amount_extractors_decimal_filter.1 "$1.50" (3/2) (by decide)⟩

/-- Claim C1: for every successfully decoded image, `analyze_image` returns
authenticity score exactly 0.5 — inside [0,1], but produced by the `except`
fallback because building the result dictionary evaluates
`quality_analysis["score"]` and `_assess_quality` only ever returns an
`"overall_score"` key; in particular the fully uniform, metadata-rich,
artifact-free image (whose authenticity analysis itself scores 1.0) comes
back with 0.5 < 0.9, against the claim. -/
theorem C1_analyze_image_neutral_score :
    (∀ (img : DecodedImage) (filename analysisType : String),
      (analyzeImage img filename analysisType).get? "authenticity_score" =
        some (.num (1/2)) ∧ (0 : ℚ) ≤ 1/2 ∧ (1/2 : ℚ) ≤ 1) ∧
    (analyzeImage cleanImage "photo.jpg" "general").get? "authenticity_score" =
      some (.num (1/2)) ∧
    ¬ ((1/2 : ℚ) ≥ 9/10) ∧
    (analyzeAuthenticity cleanImage).get? "score" = some (.num 1) := by
  refine ⟨?_, by rfl, by norm_num, by rfl⟩
  intro img filename analysisType
  refine ⟨?_, by norm_num, by norm_num⟩
  obtain ⟨comp, nois, col, edg, exf, qual, binfo, canal, danal⟩ := img
  cases qual <;> rfl

/-- Claim C6, counterexample: an exception inside a sub-detector makes it
return sub-score 0.0, not the 0.5 the claim states. -/
theorem C6_counterexample :
    checkCompressionArtifacts (Except.error "cv2 failure") = 0 ∧
    checkNoisePatterns (Except.error "cv2 failure") = 0 ∧
    checkColorConsistency (Except.error "cv2 failure") = 0 ∧
    checkEdgeDiscontinuities (Except.error "cv2 failure") = 0 ∧
    checkCompressionArtifacts (Except.error "cv2 failure") ≠ 1/2 := by
  refine ⟨rfl, rfl, rfl, rfl, ?_⟩
  intro h
  norm_num [checkCompressionArtifacts] at h

/-- Claim C6, amended: an exception inside any of the four authenticity
sub-detectors yields sub-score 0.0 for that detector (not 0.5) and never
propagates — the authenticity analysis still returns a full result
dictionary recording the zero sub-score. -/
theorem C6_subdetector_exception_zero (msg : String) :
    checkCompressionArtifacts (.error msg) = 0 ∧
    checkNoisePatterns (.error msg) = 0 ∧
    checkColorConsistency (.error msg) = 0 ∧
    checkEdgeDiscontinuities (.error msg) = 0 ∧
    (∀ (exif : ExifRaw) (q : Except String QualityStats)
        (binfo canal danal : PVal),
      (analyzeAuthenticity
        { compression := .error msg, noise := .error msg, color := .error msg,
          edge := .error msg, exif := exif, quality := q,
          basicInfo := binfo, contentAnalysis := canal,
          damageAnalysis := danal }).get? "compression_score" =
        some (.num 0) ∧
      ∃ v, (analyzeAuthenticity
        { compression := .error msg, noise := .error msg, color := .error msg,
          edge := .error msg, exif := exif, quality := q,
          basicInfo := binfo, contentAnalysis := canal,
          damageAnalysis := danal }).get? "score" = some v) := by
  refine ⟨rfl, rfl, rfl, rfl, ?_⟩
  intro exif q binfo canal danal
  exact ⟨rfl, ⟨_, rfl⟩⟩

end Guardchain
